import Mathlib

/-!
Shallow embedding of `src/versions.rs` from the yb_stats repository.

The Rust module collects YugabyteDB version information: `read_version`
probes a host, fetches `/api/v1/version` over HTTP and parses the JSON
body into `VersionData`; `parse_version` embeds `serde_json::from_str`
with a default-record fallback; `add_to_version_vector` flattens a
`VersionData` into a `StoredVersionData` row; `read_version_snapshot`
loads a snapshot's CSV rows; `print_version_data` renders the loaded
rows filtered by a hostname regex.

Effects are made explicit: console output is a list of `OutLine`
values tagged with the stream (`println!` writes to stdout,
`eprintln!` to stderr); `process::exit` and panics (`unwrap` on an
`Err`) become the `Outcome.exited` / `Outcome.panicked` constructors.
The network and the filesystem enter as explicit inputs (`HostEnv`,
`FileOpen`). Rust `Vec` is modelled as `List` (push = append), the
`chrono` timestamp as an opaque integer, and `Regex::is_match` as an
abstract predicate `String → Bool`.
-/

/-- Timestamp type standing in for `chrono::DateTime<Local>`; its internal
structure is irrelevant to the claims, only equality matters. -/
abbrev DateTimeLocal := Int

/-- `pub struct VersionData` of versions.rs: the JSON schema of
`/api/v1/version`. All fields are mandatory for serde deserialization. -/
structure VersionData where
  git_hash : String
  build_hostname : String
  build_timestamp : String
  build_username : String
  build_clean_repo : Bool
  build_id : String
  build_type : String
  version_number : String
  build_number : String
deriving DecidableEq, Repr

/-- `pub struct StoredVersionData` of versions.rs: the flattened CSV row;
`build_clean_repo` becomes a string here. -/
structure StoredVersionData where
  hostname_port : String
  timestamp : DateTimeLocal
  git_hash : String
  build_hostname : String
  build_timestamp : String
  build_username : String
  build_clean_repo : String
  build_id : String
  build_type : String
  version_number : String
  build_number : String
deriving DecidableEq, Repr

/-- Console stream of an output line. -/
inductive OutStream where
  | stdout : OutStream
  | stderr : OutStream
deriving DecidableEq, Repr

/-- One line written to the console, tagged with its stream. -/
structure OutLine where
  stream : OutStream
  text : String
deriving DecidableEq, Repr

/-- Result of running a piece of the program: normal return, process
exit (`process::exit`), or a Rust panic (`unwrap` on an `Err`). -/
inductive Outcome (α : Type) where
  | ok : α → Outcome α
  | exited : Nat → Outcome α
  | panicked : String → Outcome α
deriving DecidableEq, Repr

/-! ### JSON values and a small JSON parser

`serde_json::from_str::<VersionData>` first parses the text as JSON and
then deserializes the struct; both stages are embedded executably so the
concrete payloads of the spec can be evaluated. -/

/-- A JSON value. Numbers keep their raw lexeme: no claim depends on
numeric values, only on the fact that a number is not a string/bool. -/
inductive Json where
  | null : Json
  | bool : Bool → Json
  | num : String → Json
  | str : String → Json
  | arr : List Json → Json
  | obj : List (String × Json) → Json

/-- The double-quote character. -/
def quoteC : Char := Char.ofNat 34
/-- The backslash character. -/
def backslashC : Char := Char.ofNat 92
/-- Opening curly bracket. -/
def lcurlyC : Char := Char.ofNat 123
/-- Closing curly bracket. -/
def rcurlyC : Char := Char.ofNat 125
/-- Opening square bracket. -/
def lsquareC : Char := Char.ofNat 91
/-- Closing square bracket. -/
def rsquareC : Char := Char.ofNat 93

/-- JSON whitespace. -/
def isJsonWs (c : Char) : Bool :=
  c = ' ' || c = '\n' || c = '\t' || c = '\r'

/-- Drop leading JSON whitespace. -/
def skipWs : List Char → List Char
  | [] => []
  | c :: cs => if isJsonWs c then skipWs cs else c :: cs

/-- Hex digit value. -/
def hexVal (c : Char) : Option Nat :=
  if '0' ≤ c ∧ c ≤ '9' then some (c.toNat - '0'.toNat)
  else if 'a' ≤ c ∧ c ≤ 'f' then some (c.toNat - 'a'.toNat + 10)
  else if 'A' ≤ c ∧ c ≤ 'F' then some (c.toNat - 'A'.toNat + 10)
  else none

/-- Parse the body of a JSON string after the opening quote; `acc` holds
the characters read so far, reversed. Fuel bounds the recursion. -/
def parseStr : Nat → List Char → List Char → Option (String × List Char)
  | 0, _, _ => none
  | _ + 1, _, [] => none
  | n + 1, acc, c :: cs =>
    if c = quoteC then some (String.mk acc.reverse, cs)
    else if c = backslashC then
      match cs with
      | [] => none
      | e :: cs1 =>
        if e = quoteC then parseStr n (quoteC :: acc) cs1
        else if e = backslashC then parseStr n (backslashC :: acc) cs1
        else if e = '/' then parseStr n ('/' :: acc) cs1
        else if e = 'b' then parseStr n (Char.ofNat 8 :: acc) cs1
        else if e = 'f' then parseStr n (Char.ofNat 12 :: acc) cs1
        else if e = 'n' then parseStr n ('\n' :: acc) cs1
        else if e = 'r' then parseStr n ('\r' :: acc) cs1
        else if e = 't' then parseStr n ('\t' :: acc) cs1
        else if e = 'u' then
          match cs1 with
          | h1 :: h2 :: h3 :: h4 :: cs2 =>
            match hexVal h1, hexVal h2, hexVal h3, hexVal h4 with
            | some a, some b, some c2, some d =>
              parseStr n (Char.ofNat (a * 4096 + b * 256 + c2 * 16 + d) :: acc) cs2
            | _, _, _, _ => none
          | _ => none
        else none
    else parseStr n (c :: acc) cs

/-- A character that may occur in a JSON number lexeme. -/
def isNumChar (c : Char) : Bool :=
  c.isDigit || c = '-' || c = '+' || c = '.' || c = 'e' || c = 'E'

/-- Split off the longest numeric-lexeme prefix. -/
def spanNum : List Char → List Char × List Char
  | [] => ([], [])
  | c :: cs =>
    if isNumChar c then
      let p := spanNum cs
      (c :: p.1, p.2)
    else ([], c :: cs)

mutual

/-- Parse one JSON value from the input; fuel bounds the recursion. -/
def parseVal : Nat → List Char → Option (Json × List Char)
  | 0, _ => none
  | n + 1, cs =>
    match skipWs cs with
    | [] => none
    | c :: cs1 =>
      if c = quoteC then
        match parseStr n [] cs1 with
        | some (s, rest) => some (Json.str s, rest)
        | none => none
      else if c = lcurlyC then
        match skipWs cs1 with
        | c2 :: cs2 =>
          if c2 = rcurlyC then some (Json.obj [], cs2)
          else
            match parseMembers n (c2 :: cs2) with
            | some (ms, rest) => some (Json.obj ms, rest)
            | none => none
        | [] => none
      else if c = lsquareC then
        match skipWs cs1 with
        | c2 :: cs2 =>
          if c2 = rsquareC then some (Json.arr [], cs2)
          else
            match parseElems n (c2 :: cs2) with
            | some (vs, rest) => some (Json.arr vs, rest)
            | none => none
        | [] => none
      else if c = 't' then
        match cs1 with
        | 'r' :: 'u' :: 'e' :: cs2 => some (Json.bool true, cs2)
        | _ => none
      else if c = 'f' then
        match cs1 with
        | 'a' :: 'l' :: 's' :: 'e' :: cs2 => some (Json.bool false, cs2)
        | _ => none
      else if c = 'n' then
        match cs1 with
        | 'u' :: 'l' :: 'l' :: cs2 => some (Json.null, cs2)
        | _ => none
      else if c.isDigit || c = '-' then
        let p := spanNum (c :: cs1)
        some (Json.num (String.mk p.1), p.2)
      else none

/-- Parse the members of a JSON object after the opening bracket (at
least one member). -/
def parseMembers : Nat → List Char → Option (List (String × Json) × List Char)
  | 0, _ => none
  | n + 1, cs =>
    match skipWs cs with
    | c :: cs1 =>
      if c = quoteC then
        match parseStr n [] cs1 with
        | some (key, cs2) =>
          match skipWs cs2 with
          | ':' :: cs3 =>
            match parseVal n cs3 with
            | some (v, cs4) =>
              match skipWs cs4 with
              | d :: cs5 =>
                if d = ',' then
                  match parseMembers n cs5 with
                  | some (ms, rest) => some ((key, v) :: ms, rest)
                  | none => none
                else if d = rcurlyC then some ([(key, v)], cs5)
                else none
              | [] => none
            | none => none
          | _ => none
        | none => none
      else none
    | [] => none

/-- Parse the elements of a JSON array after the opening bracket (at
least one element). -/
def parseElems : Nat → List Char → Option (List Json × List Char)
  | 0, _ => none
  | n + 1, cs =>
    match parseVal n cs with
    | some (v, cs1) =>
      match skipWs cs1 with
      | d :: cs2 =>
        if d = ',' then
          match parseElems n cs2 with
          | some (vs, rest) => some (v :: vs, rest)
          | none => none
        else if d = rsquareC then some ([v], cs2)
        else none
      | [] => none
    | none => none

end

/-- Parse a whole string as one JSON document (trailing whitespace
allowed, anything else is an error), as `serde_json` does. -/
def jsonParse (s : String) : Option Json :=
  let cs := s.toList
  match parseVal (cs.length + 2) cs with
  | some (j, rest) => if skipWs rest = [] then some j else none
  | none => none

/-! ### Deserializing `VersionData`, as serde's derived `Deserialize` does:
every declared field is mandatory, must have the declared type, and may
appear only once; unknown fields are ignored. -/

/-- Look a mandatory field up in an object's member list: exactly one
occurrence required (serde errors on missing and on duplicate fields). -/
def getField (fields : List (String × Json)) (name : String) : Except String Json :=
  match fields.filter (fun p => p.1 == name) with
  | [p] => Except.ok p.2
  | [] => Except.error ("missing field " ++ name)
  | _ => Except.error ("duplicate field " ++ name)

/-- Expect a JSON string. -/
def asString : Json → Except String String
  | Json.str s => Except.ok s
  | _ => Except.error "invalid type: expected a string"

/-- Expect a JSON boolean. -/
def asBool : Json → Except String Bool
  | Json.bool b => Except.ok b
  | _ => Except.error "invalid type: expected a boolean"

/-- Deserialize a parsed JSON value into `VersionData`. -/
def versionDataOfJson : Json → Except String VersionData
  | Json.obj fields => do
    let git_hash ← asString (← getField fields "git_hash")
    let build_hostname ← asString (← getField fields "build_hostname")
    let build_timestamp ← asString (← getField fields "build_timestamp")
    let build_username ← asString (← getField fields "build_username")
    let build_clean_repo ← asBool (← getField fields "build_clean_repo")
    let build_id ← asString (← getField fields "build_id")
    let build_type ← asString (← getField fields "build_type")
    let version_number ← asString (← getField fields "version_number")
    let build_number ← asString (← getField fields "build_number")
    pure { git_hash, build_hostname, build_timestamp, build_username,
           build_clean_repo, build_id, build_type, version_number, build_number }
  | _ => Except.error "invalid type: expected struct VersionData"

/-- `serde_json::from_str::<VersionData>`: JSON parse, then struct
deserialization. -/
def from_str_VersionData (s : String) : Except String VersionData :=
  match jsonParse s with
  | none => Except.error "invalid JSON"
  | some j => versionDataOfJson j

/-- True when an `Except` holds an error. -/
def isErr {ε α : Type} : Except ε α → Bool
  | Except.error _ => true
  | Except.ok _ => false

/-- The record literal of `parse_version`'s `unwrap_or_else` closure:
every string field empty, `build_clean_repo` `true`. -/
def default_versiondata : VersionData :=
  { git_hash := "", build_hostname := "", build_timestamp := "",
    build_username := "", build_clean_repo := true, build_id := "",
    build_type := "", version_number := "", build_number := "" }

/-- `fn parse_version` of versions.rs: `serde_json::from_str( &version_data
).unwrap_or_else(|_e| ...default record...)`. -/
def parse_version (version_data : String) : VersionData :=
  match from_str_VersionData version_data with
  | Except.ok v => v
  | Except.error _ => default_versiondata

/-! ### `read_version`: the per-host fetch -/

/-- Outcome of `reqwest::blocking::get` on `http://host/api/v1/version`:
either the request failed (`failure`), or a response arrived whose
`.text()` call yields `Except.ok body` or an error. -/
inductive HttpResult where
  | failure : HttpResult
  | success : Except Unit String → HttpResult
deriving Repr

/-- The observable network environment of one host: the result of the
`scan_port_addr` reachability probe and of the HTTP GET. -/
structure HostEnv where
  portOpen : Bool
  http : HttpResult
deriving Repr

/-- The warning `read_version` prints for an unreachable host
(a `println!`, hence standard output). -/
def unreachableWarning (hostname : String) : String :=
  "Warning hostname:port " ++ hostname ++ " cannot be reached, skipping"

/-- `pub fn read_version` of versions.rs. An unreachable port prints the
warning and falls back to `parse_version ""`; a failed GET falls back
silently; a successful GET whose body read fails panics
(`.text().unwrap()`); otherwise the body is parsed. -/
def read_version (hostname : String) (env : HostEnv) :
    List OutLine × Outcome VersionData :=
  if !env.portOpen then
    ([⟨OutStream.stdout, unreachableWarning hostname⟩],
     Outcome.ok (parse_version ""))
  else
    match env.http with
    | HttpResult.success (Except.ok body) => ([], Outcome.ok (parse_version body))
    | HttpResult.success (Except.error _) =>
      ([], Outcome.panicked "called Result::unwrap on an Err value")
    | HttpResult.failure => ([], Outcome.ok (parse_version ""))

/-! ### `add_to_version_vector`: flattening into the stored row -/

/-- Rust's `bool::to_string`. -/
def boolToString (b : Bool) : String := if b then "true" else "false"

/-- `pub fn add_to_version_vector` of versions.rs: pushes one flattened
`StoredVersionData` row; `Vec::push` on the borrowed vector becomes
appending to the list. -/
def add_to_version_vector (versiondata : VersionData) (hostname : String)
    (snapshot_time : DateTimeLocal)
    (stored_versiondata : List StoredVersionData) : List StoredVersionData :=
  stored_versiondata ++
    [{ hostname_port := hostname,
       timestamp := snapshot_time,
       git_hash := versiondata.git_hash,
       build_hostname := versiondata.build_hostname,
       build_timestamp := versiondata.build_timestamp,
       build_username := versiondata.build_username,
       build_clean_repo := boolToString versiondata.build_clean_repo,
       build_id := versiondata.build_id,
       build_type := versiondata.build_type,
       version_number := versiondata.version_number,
       build_number := versiondata.build_number }]

/-! ### `read_version_snapshot` and `print_version_data` -/

/-- Result of `fs::File::open` composed with the CSV reader: an open
error carries the OS message; an opened file is abstracted as the
sequence of `reader.deserialize()` row results in file order. -/
inductive FileOpen where
  | failure : String → FileOpen
  | opened : List (Except String StoredVersionData) → FileOpen

/-- `PathBuf::join`. -/
def pathJoin (p c : String) : String := p ++ "/" ++ c

/-- The `for row in reader.deserialize()` loop with `row.unwrap()`:
collects all rows in order, or reports the first row error (on which
the Rust loop panics). -/
def collectRows : List (Except String StoredVersionData) →
    Except String (List StoredVersionData)
  | [] => Except.ok []
  | Except.error e :: _ => Except.error e
  | Except.ok d :: rest =>
    match collectRows rest with
    | Except.ok l => Except.ok (d :: l)
    | Except.error e => Except.error e

/-- `fn read_version_snapshot` of versions.rs: opens
`<dir>/<snapshot_number>/versions`; on an open error prints the fatal
message to stderr and exits with code 1; otherwise deserializes every
CSV row, panicking on the first bad row. -/
def read_version_snapshot (snapshot_number : String)
    (yb_stats_directory : String) (fs : String → FileOpen) :
    List OutLine × Outcome (List StoredVersionData) :=
  let versions_file := pathJoin (pathJoin yb_stats_directory snapshot_number) "versions"
  match fs versions_file with
  | FileOpen.failure e =>
    ([⟨OutStream.stderr, "Fatal: error reading file: " ++ versions_file ++ ": " ++ e⟩],
     Outcome.exited 1)
  | FileOpen.opened rows =>
    match collectRows rows with
    | Except.error e => ([], Outcome.panicked e)
    | Except.ok recs => ([], Outcome.ok recs)

/-- Left-aligned padding to a minimum width, as a Rust `\x7b:20\x7d`
format spec does for strings. -/
def padTo (w : Nat) (s : String) : String :=
  s ++ String.mk (List.replicate (w - s.length) ' ')

/-- One line of `print_version_data`'s table: six columns of widths
20, 15, 10, 10, 24, 10 separated by single spaces. -/
def formatVersionLine (a b c d e f : String) : String :=
  padTo 20 a ++ " " ++ padTo 15 b ++ " " ++ padTo 10 c ++ " " ++
  padTo 10 d ++ " " ++ padTo 24 e ++ " " ++ padTo 10 f

/-- The header line of the versions table. -/
def versionHeaderLine : String :=
  formatVersionLine "hostname_port" "version_number" "build_nr" "build_type"
    "build_timestamp" "git_hash"

/-- The data line printed for one stored row. -/
def formatVersionRow (row : StoredVersionData) : String :=
  formatVersionLine row.hostname_port row.version_number row.build_number
    row.build_type row.build_timestamp row.git_hash

/-- `pub fn print_version_data` of versions.rs: loads the snapshot's
rows, prints the header, then prints exactly the rows whose
`hostname_port` matches the hostname filter, in order. The `Regex` is
abstracted as its `is_match` predicate. -/
def print_version_data (snapshot_number : String)
    (yb_stats_directory : String) (hostname_filter : String → Bool)
    (fs : String → FileOpen) : List OutLine × Outcome Unit :=
  match read_version_snapshot snapshot_number yb_stats_directory fs with
  | (out, Outcome.ok stored_versions) =>
    (out ++ OutLine.mk OutStream.stdout versionHeaderLine ::
      (stored_versions.filter (fun row => hostname_filter row.hostname_port)).map
        (fun row => OutLine.mk OutStream.stdout (formatVersionRow row)),
     Outcome.ok ())
  | (out, Outcome.exited c) => (out, Outcome.exited c)
  | (out, Outcome.panicked m) => (out, Outcome.panicked m)

/-! ### Concrete payloads and sample data used by the claims -/

/-- The upstream body of the spec's end-to-end scenario: only three of
the nine mandatory `VersionData` fields are present. -/
def c2_body : String :=
  "\x7b\"git_hash\":\"abc\",\"version_number\":\"2.11.2.0\",\"build_number\":\"89\"\x7d"

/-- The complete `/api/v1/version` body of the repository's own
`parse_version_data` test. -/
def full_body : String :=
  "\x7b\n    \"git_hash\": \"d142556567b5e1c83ea5c915ec7b9964492b2321\",\n    \"build_hostname\": \"centos-gcp-cloud-jenkins-worker-emjsmd\",\n    \"build_timestamp\": \"25 Jan 2022 17:51:08 UTC\",\n    \"build_username\": \"jenkins\",\n    \"build_clean_repo\": true,\n    \"build_id\": \"3801\",\n    \"build_type\": \"RELEASE\",\n    \"version_number\": \"2.11.2.0\",\n    \"build_number\": \"89\"\n\x7d"

-- Sanity check mirroring the repository's `parse_version_data` test:
-- the complete body deserializes and keeps its `git_hash`.
set_option maxRecDepth 1000000 in
example : (parse_version full_body).git_hash =
    "d142556567b5e1c83ea5c915ec7b9964492b2321" := by decide

/-- A fully populated stored row. -/
def sampleRow1 : StoredVersionData :=
  { hostname_port := "10.0.0.1:7000", timestamp := 0, git_hash := "abc",
    build_hostname := "bh", build_timestamp := "ts", build_username := "u",
    build_clean_repo := "true", build_id := "3801", build_type := "RELEASE",
    version_number := "2.11.2.0", build_number := "89" }

/-- A second stored row with a different host. -/
def sampleRow2 : StoredVersionData :=
  { hostname_port := "10.0.0.2:7000", timestamp := 0, git_hash := "",
    build_hostname := "", build_timestamp := "", build_username := "",
    build_clean_repo := "true", build_id := "", build_type := "",
    version_number := "", build_number := "" }

/-- A fully populated raw record. -/
def sampleVD : VersionData :=
  { git_hash := "abc", build_hostname := "bh", build_timestamp := "ts",
    build_username := "u", build_clean_repo := true, build_id := "3801",
    build_type := "RELEASE", version_number := "2.11.2.0", build_number := "89" }

/-- A filesystem whose versions file opens and holds two good rows. -/
def sampleFs : String → FileOpen :=
  fun _ => FileOpen.opened [Except.ok sampleRow1, Except.ok sampleRow2]

/-- A filesystem whose versions file is absent. -/
def sampleFsMissing : String → FileOpen :=
  fun _ => FileOpen.failure "No such file or directory (os error 2)"

/-- A filesystem whose versions file opens but whose second row is
corrupt. -/
def sampleFsCorrupt : String → FileOpen :=
  fun _ => FileOpen.opened [Except.ok sampleRow1, Except.error "CSV deserialize error"]

/-! ### Helper lemmas -/

/-- The empty body fails JSON parsing, so `parse_version` yields the
default record. -/
theorem parse_version_empty : parse_version "" = default_versiondata := by decide

/-- `parse_version` is the default record exactly on deserialization
failure. -/
theorem parse_version_of_isErr (s : String)
    (h : isErr (from_str_VersionData s) = true) :
    parse_version s = default_versiondata := by
  unfold parse_version
  cases hfs : from_str_VersionData s with
  | ok v => rw [hfs] at h; simp [isErr] at h
  | error e => rfl

/-- Collecting the rows of an all-good list returns exactly the values. -/
theorem collectRows_map_ok (recs : List StoredVersionData) :
    collectRows (recs.map Except.ok) = Except.ok recs := by
  induction recs with
  | nil => rfl
  | cons d rest ih => simp [collectRows, ih]

/-- A successful row collection means every row was good, in order. -/
theorem collectRows_ok_shape (rows : List (Except String StoredVersionData))
    (recs : List StoredVersionData) (h : collectRows rows = Except.ok recs) :
    rows = recs.map Except.ok := by
  induction rows generalizing recs with
  | nil =>
    simp only [collectRows] at h
    cases h
    rfl
  | cons r rest ih =>
    cases r with
    | error e => simp [collectRows] at h
    | ok d =>
      simp only [collectRows] at h
      cases hrec : collectRows rest with
      | error e => rw [hrec] at h; cases h
      | ok l =>
        rw [hrec] at h
        cases h
        simp [ih l hrec]

/-- A bad row anywhere makes the collection fail. -/
theorem collectRows_error_of_mem (rows : List (Except String StoredVersionData))
    (e : String) (h : Except.error e ∈ rows) :
    ∃ m, collectRows rows = Except.error m := by
  induction rows with
  | nil => cases h
  | cons r rest ih =>
    cases r with
    | error e2 => exact ⟨e2, rfl⟩
    | ok d =>
      have h2 : Except.error e ∈ rest := by
        rcases List.mem_cons.mp h with h1 | h1
        · cases h1
        · exact h1
      obtain ⟨m, hm⟩ := ih h2
      exact ⟨m, by simp [collectRows, hm]⟩

/-! ### Claim theorems -/

/-- C1: for every unreachable host H, `read_version` logs the warning
and returns the default/empty record instead of failing, and flattening
that record produces a synthetic empty record tagged for H, so the
versions pass completes with a record for H. -/
theorem C1_unreachable_host_default_record (hostname : String)
    (env : HostEnv) (t : DateTimeLocal) (v : List StoredVersionData)
    (h : env.portOpen = false) :
    read_version hostname env =
      ([⟨OutStream.stdout, unreachableWarning hostname⟩],
        Outcome.ok default_versiondata) ∧
    default_versiondata =
      { git_hash := "", build_hostname := "", build_timestamp := "",
        build_username := "", build_clean_repo := true, build_id := "",
        build_type := "", version_number := "", build_number := "" } ∧
    ∃ r ∈ add_to_version_vector default_versiondata hostname t v,
      r.hostname_port = hostname ∧ r.version_number = "" ∧
      r.build_number = "" ∧ r.git_hash = "" := by
  refine ⟨?_, rfl, ?_⟩
  · simp only [read_version, h, Bool.not_false, if_true, parse_version_empty]
  · refine ⟨_, List.mem_append_right v (List.mem_singleton_self _), rfl, rfl, rfl, rfl⟩

/-- C1 witness: the theorem instantiated at host 10.0.0.2:7000 with a
closed port. -/
theorem C1_witness :
    read_version "10.0.0.2:7000" (HostEnv.mk false HttpResult.failure) =
      ([⟨OutStream.stdout, unreachableWarning "10.0.0.2:7000"⟩],
        Outcome.ok default_versiondata) ∧
    ∃ r ∈ add_to_version_vector default_versiondata "10.0.0.2:7000" 0 [],
      r.hostname_port = "10.0.0.2:7000" ∧ r.version_number = "" ∧
      r.build_number = "" ∧ r.git_hash = "" := by
  have h := C1_unreachable_host_default_record "10.0.0.2:7000"
    (HostEnv.mk false HttpResult.failure) 0 [] rfl
  exact ⟨h.1, h.2.2⟩

/-- C7 counterexample: with the port open, the GET succeeding and the
body read failing, `read_version` panics (`.text().unwrap()`) instead
of returning a `VersionData`, so not every per-host error is absorbed. -/
theorem C7_counterexample :
    read_version "10.0.0.1:7000"
        (HostEnv.mk true (HttpResult.success (Except.error ()))) =
      ([], Outcome.panicked "called Result::unwrap on an Err value") := rfl

/-- C7 amended: per-host errors are absorbed for the unreachable-host,
failed-GET and unparseable-body outcomes — `read_version` returns a
`VersionData` value there — but a successful GET whose body read fails
panics and escapes the Collector boundary. -/
theorem C7_amended_absorbed (hostname : String) (env : HostEnv)
    (h : env.portOpen = false ∨ env.http = HttpResult.failure ∨
      ∃ body, env.http = HttpResult.success (Except.ok body)) :
    ∃ v, (read_version hostname env).2 = Outcome.ok v := by
  unfold read_version
  rcases h with h | h | ⟨body, h⟩
  · rw [h]
    exact ⟨parse_version "", rfl⟩
  · rw [h]
    cases env.portOpen <;> exact ⟨parse_version "", rfl⟩
  · rw [h]
    cases env.portOpen
    · exact ⟨parse_version "", rfl⟩
    · exact ⟨parse_version body, rfl⟩

/-- C7 witness: the amended theorem instantiated at a reachable host
whose GET fails. -/
theorem C7_witness :
    ∃ v, (read_version "10.0.0.1:7000"
        (HostEnv.mk true HttpResult.failure)).2 = Outcome.ok v :=
  C7_amended_absorbed "10.0.0.1:7000" (HostEnv.mk true HttpResult.failure)
    (Or.inr (Or.inl rfl))

/-- C8 counterexample: the unreachable-host warning of `read_version`
is a `println!`, so it goes to standard output, not standard error. -/
theorem C8_counterexample :
    (read_version "10.0.0.2:7000" (HostEnv.mk false HttpResult.failure)).1 =
      [⟨OutStream.stdout, unreachableWarning "10.0.0.2:7000"⟩] ∧
    OutStream.stdout ≠ OutStream.stderr := ⟨rfl, by decide⟩

/-- C8 amended: the unreachable-host warning emitted by `read_version`
is written to standard output (`println!`), and every line the function
emits in that case is on standard output. -/
theorem C8_amended_warning_on_stdout (hostname : String) (env : HostEnv)
    (h : env.portOpen = false) :
    (read_version hostname env).1 =
      [⟨OutStream.stdout, unreachableWarning hostname⟩] ∧
    ∀ line ∈ (read_version hostname env).1, line.stream = OutStream.stdout := by
  have h1 : (read_version hostname env).1 =
      [⟨OutStream.stdout, unreachableWarning hostname⟩] := by
    simp only [read_version, h, Bool.not_false, if_true]
  refine ⟨h1, ?_⟩
  intro line hl
  rw [h1] at hl
  rcases List.mem_singleton.mp hl with rfl
  rfl

/-- C8 witness: the amended theorem instantiated at host 10.0.0.2:7000
with a closed port. -/
theorem C8_witness :
    (read_version "10.0.0.2:7000" (HostEnv.mk false HttpResult.failure)).1 =
      [⟨OutStream.stdout, unreachableWarning "10.0.0.2:7000"⟩] :=
  (C8_amended_warning_on_stdout "10.0.0.2:7000"
    (HostEnv.mk false HttpResult.failure) rfl).1

/-- C3 counterexample: on a body that fails to parse, the default
record is substituted but no warning is logged at all — `read_version`
on a reachable host with an unparseable body emits an empty output
list — and `VersionData` carries no synthetic tag field. -/
theorem C3_counterexample :
    isErr (from_str_VersionData "garbage") = true ∧
    read_version "10.0.0.1:7000"
        (HostEnv.mk true (HttpResult.success (Except.ok "garbage"))) =
      ([], Outcome.ok default_versiondata) := by
  constructor
  · decide
  · rfl

/-- C3 amended: for every input string that fails to deserialize as the
versions JSON schema, `parse_version` substitutes the default record
(string fields empty, `build_clean_repo` true) and the pass continues
without aborting; however no warning is logged on parse failure and the
substituted record carries no explicit synthetic tag — it is
recognizable only by its blank fields. -/
theorem C3_amended_silent_default (s hostname : String)
    (h : isErr (from_str_VersionData s) = true) :
    parse_version s = default_versiondata ∧
    read_version hostname
        (HostEnv.mk true (HttpResult.success (Except.ok s))) =
      ([], Outcome.ok default_versiondata) := by
  have h1 := parse_version_of_isErr s h
  refine ⟨h1, ?_⟩
  simp [read_version, h1]

/-- C3 witness: the amended theorem instantiated at the unparseable
body "garbage". -/
theorem C3_witness :
    parse_version "garbage" = default_versiondata ∧
    read_version "10.0.0.1:7000"
        (HostEnv.mk true (HttpResult.success (Except.ok "garbage"))) =
      ([], Outcome.ok default_versiondata) :=
  C3_amended_silent_default "garbage" "10.0.0.1:7000" (by decide)

/-- C9: on any parse failure the substituted record has every string
field empty but `build_clean_repo` true, so the flattened stored row
carries the non-empty string "true" in `build_clean_repo`, exactly what
a genuine clean-repo record stores — the synthetic record is not
distinguishable by that field. -/
theorem C9_synthetic_clean_repo (s hostname : String) (t : DateTimeLocal)
    (v : List StoredVersionData)
    (h : isErr (from_str_VersionData s) = true) :
    parse_version s = default_versiondata ∧
    default_versiondata =
      { git_hash := "", build_hostname := "", build_timestamp := "",
        build_username := "", build_clean_repo := true, build_id := "",
        build_type := "", version_number := "", build_number := "" } ∧
    (add_to_version_vector (parse_version s) hostname t v).getLast? =
      some { hostname_port := hostname, timestamp := t, git_hash := "",
             build_hostname := "", build_timestamp := "",
             build_username := "", build_clean_repo := "true",
             build_id := "", build_type := "", version_number := "",
             build_number := "" } ∧
    ("true" : String) ≠ "" ∧
    ∀ vd : VersionData, vd.build_clean_repo = true →
      boolToString vd.build_clean_repo = "true" := by
  have h1 := parse_version_of_isErr s h
  refine ⟨h1, rfl, ?_, by decide, ?_⟩
  · rw [h1]
    exact List.getLast?_concat v
  · intro vd hvd
    simp [boolToString, hvd]

/-- C9 witness: the theorem instantiated at the empty body. -/
theorem C9_witness :
    parse_version "" = default_versiondata ∧
    (add_to_version_vector (parse_version "") "10.0.0.2:7000" 0 []).getLast? =
      some { hostname_port := "10.0.0.2:7000", timestamp := 0, git_hash := "",
             build_hostname := "", build_timestamp := "",
             build_username := "", build_clean_repo := "true",
             build_id := "", build_type := "", version_number := "",
             build_number := "" } := by
  have h := C9_synthetic_clean_repo "" "10.0.0.2:7000" 0 [] (by decide)
  exact ⟨h.1, h.2.2.1⟩

set_option maxRecDepth 100000 in
/-- C2 counterexample: the spec's three-field body lacks six mandatory
fields of the `VersionData` schema, so serde deserialization fails and
the default record is substituted — the stored row for 10.0.0.1:7000
has `version_number` "" rather than "2.11.2.0"; and the row for the
unreachable host does not have all string fields empty: its
`hostname_port` is the host and its `build_clean_repo` is "true". -/
theorem C2_counterexample :
    (read_version "10.0.0.1:7000"
        (HostEnv.mk true (HttpResult.success (Except.ok c2_body)))).2 =
      Outcome.ok default_versiondata ∧
    (add_to_version_vector default_versiondata "10.0.0.1:7000" 0 []).map
        (fun r => r.version_number) = [""] ∧
    ("" : String) ≠ "2.11.2.0" ∧
    (add_to_version_vector default_versiondata "10.0.0.2:7000" 0 []).map
        (fun r => (r.hostname_port, r.build_clean_repo)) =
      [("10.0.0.2:7000", "true")] ∧
    ("10.0.0.2:7000" : String) ≠ "" ∧ ("true" : String) ≠ "" := by
  refine ⟨by decide, rfl, by decide, rfl, by decide, by decide⟩

set_option maxRecDepth 100000 in
/-- C2 amended: fetching the versions kind from 10.0.0.1:7000 with the
three-field body fails the schema parse (six mandatory fields missing),
so the default record is substituted; the stored row then has
`hostname_port` "10.0.0.1:7000", every copied string field empty and
`build_clean_repo` "true". The unreachable host 10.0.0.2:7000 yields a
logged warning and a stored row whose `hostname_port` is the host,
whose copied string fields are empty and whose `build_clean_repo` is
"true". -/
theorem C2_amended_end_to_end :
    (read_version "10.0.0.1:7000"
        (HostEnv.mk true (HttpResult.success (Except.ok c2_body)))).2 =
      Outcome.ok default_versiondata ∧
    add_to_version_vector default_versiondata "10.0.0.1:7000" 0 [] =
      [{ hostname_port := "10.0.0.1:7000", timestamp := 0, git_hash := "",
         build_hostname := "", build_timestamp := "", build_username := "",
         build_clean_repo := "true", build_id := "", build_type := "",
         version_number := "", build_number := "" }] ∧
    read_version "10.0.0.2:7000" (HostEnv.mk false HttpResult.failure) =
      ([⟨OutStream.stdout, unreachableWarning "10.0.0.2:7000"⟩],
        Outcome.ok default_versiondata) ∧
    add_to_version_vector default_versiondata "10.0.0.2:7000" 0 [] =
      [{ hostname_port := "10.0.0.2:7000", timestamp := 0, git_hash := "",
         build_hostname := "", build_timestamp := "", build_username := "",
         build_clean_repo := "true", build_id := "", build_type := "",
         version_number := "", build_number := "" }] := by
  exact ⟨by decide, rfl, rfl, rfl⟩

/-- C10: `add_to_version_vector` appends exactly one stored row: the
length grows by one, every previously stored element keeps its position,
and the new last element carries the given hostname and snapshot time
with the remaining fields copied from the input `VersionData`
(`build_clean_repo` rendered as a string). -/
theorem C10_append_frame (vd : VersionData) (hostname : String)
    (t : DateTimeLocal) (l : List StoredVersionData) :
    (add_to_version_vector vd hostname t l).length = l.length + 1 ∧
    (∀ i, i < l.length → (add_to_version_vector vd hostname t l)[i]? = l[i]?) ∧
    (add_to_version_vector vd hostname t l).getLast? =
      some { hostname_port := hostname, timestamp := t,
             git_hash := vd.git_hash, build_hostname := vd.build_hostname,
             build_timestamp := vd.build_timestamp,
             build_username := vd.build_username,
             build_clean_repo := boolToString vd.build_clean_repo,
             build_id := vd.build_id, build_type := vd.build_type,
             version_number := vd.version_number,
             build_number := vd.build_number } := by
  refine ⟨by simp [add_to_version_vector], ?_, List.getLast?_concat l⟩
  intro i hi
  exact List.getElem?_append_left hi

/-- C10 witness: the theorem instantiated at a sample record over a
one-element vector. -/
theorem C10_witness :
    (add_to_version_vector sampleVD "10.0.0.1:7000" 0 [sampleRow2]).length =
      [sampleRow2].length + 1 ∧
    (add_to_version_vector sampleVD "10.0.0.1:7000" 0 [sampleRow2])[0]? =
      [sampleRow2][0]? ∧
    (add_to_version_vector sampleVD "10.0.0.1:7000" 0 [sampleRow2]).getLast? =
      some sampleRow1 := by
  have h := C10_append_frame sampleVD "10.0.0.1:7000" 0 [sampleRow2]
  exact ⟨h.1, h.2.1 0 (by decide), h.2.2⟩

/-- C4: loading a snapshot's versions records never returns a partial
result — when the file opens, a normal return happens exactly when
every row parses, and then the full record list comes back in file
order; any unparseable row makes the load fail (the row `unwrap`
panics) without returning records. -/
theorem C4_no_partial_load (snapshot_number yb_stats_directory : String)
    (fs : String → FileOpen) (rows : List (Except String StoredVersionData))
    (h : fs (pathJoin (pathJoin yb_stats_directory snapshot_number) "versions") =
      FileOpen.opened rows) :
    (∀ recs, (read_version_snapshot snapshot_number yb_stats_directory fs).2 =
        Outcome.ok recs ↔ rows = recs.map Except.ok) ∧
    ((∃ e, Except.error e ∈ rows) →
      ∃ m, (read_version_snapshot snapshot_number yb_stats_directory fs).2 =
        Outcome.panicked m) := by
  have hsnap : read_version_snapshot snapshot_number yb_stats_directory fs =
      match collectRows rows with
      | Except.error e => ([], Outcome.panicked e)
      | Except.ok recs => ([], Outcome.ok recs) := by
    unfold read_version_snapshot
    dsimp only
    rw [h]
  constructor
  · intro recs
    constructor
    · intro hok
      rw [hsnap] at hok
      cases hcr : collectRows rows with
      | error e => rw [hcr] at hok; cases hok
      | ok l =>
        rw [hcr] at hok
        cases hok
        exact collectRows_ok_shape rows recs hcr
    · intro hrows
      rw [hsnap, hrows, collectRows_map_ok]
  · rintro ⟨e, he⟩
    obtain ⟨m, hm⟩ := collectRows_error_of_mem rows e he
    exact ⟨m, by rw [hsnap, hm]⟩

/-- C4 witness: the theorem instantiated on a two-row file that loads
fully and on a file whose second row is corrupt. -/
theorem C4_witness :
    (read_version_snapshot "1" "yb_stats.snapshots" sampleFs).2 =
      Outcome.ok [sampleRow1, sampleRow2] ∧
    ∃ m, (read_version_snapshot "1" "yb_stats.snapshots" sampleFsCorrupt).2 =
      Outcome.panicked m := by
  constructor
  · exact ((C4_no_partial_load "1" "yb_stats.snapshots" sampleFs
      [Except.ok sampleRow1, Except.ok sampleRow2] rfl).1
      [sampleRow1, sampleRow2]).mpr rfl
  · exact (C4_no_partial_load "1" "yb_stats.snapshots" sampleFsCorrupt
      [Except.ok sampleRow1, Except.error "CSV deserialize error"] rfl).2
      ⟨"CSV deserialize error",
        List.mem_cons_of_mem _ (List.mem_cons_self _ _)⟩

/-- C5: when the versions file for the requested snapshot is absent,
`read_version_snapshot` writes the descriptive fatal message to
standard error and terminates the process with exit code 1 — a
non-zero code — returning no records. -/
theorem C5_missing_snapshot_fatal (snapshot_number yb_stats_directory : String)
    (fs : String → FileOpen) (e : String)
    (h : fs (pathJoin (pathJoin yb_stats_directory snapshot_number) "versions") =
      FileOpen.failure e) :
    read_version_snapshot snapshot_number yb_stats_directory fs =
      ([⟨OutStream.stderr,
          "Fatal: error reading file: " ++
            pathJoin (pathJoin yb_stats_directory snapshot_number) "versions" ++
            ": " ++ e⟩],
        Outcome.exited 1) ∧
    (1 : Nat) ≠ 0 := by
  constructor
  · unfold read_version_snapshot
    dsimp only
    rw [h]
  · decide

/-- C5 witness: the theorem instantiated on a filesystem where the
versions file is missing. -/
theorem C5_witness :
    read_version_snapshot "1" "yb_stats.snapshots" sampleFsMissing =
      ([⟨OutStream.stderr,
          "Fatal: error reading file: " ++
            pathJoin (pathJoin "yb_stats.snapshots" "1") "versions" ++
            ": " ++ "No such file or directory (os error 2)"⟩],
        Outcome.exited 1) :=
  (C5_missing_snapshot_fatal "1" "yb_stats.snapshots" sampleFsMissing
    "No such file or directory (os error 2)" rfl).1

/-- C6: the hostname regex narrows displayed output only — whenever the
snapshot loads records `stored`, `print_version_data` prints the header
and then exactly the rows of `stored` whose `hostname_port` matches the
filter, in order; the loaded set `stored` itself is fixed by
`read_version_snapshot`, which takes no filter, so it is the same for
every filter. -/
theorem C6_filter_narrows_display_only (snapshot_number yb_stats_directory : String)
    (fs : String → FileOpen) (hostname_filter : String → Bool)
    (out : List OutLine) (stored : List StoredVersionData)
    (h : read_version_snapshot snapshot_number yb_stats_directory fs =
      (out, Outcome.ok stored)) :
    print_version_data snapshot_number yb_stats_directory hostname_filter fs =
      (out ++ OutLine.mk OutStream.stdout versionHeaderLine ::
        (stored.filter (fun row => hostname_filter row.hostname_port)).map
          (fun row => OutLine.mk OutStream.stdout (formatVersionRow row)),
       Outcome.ok ()) := by
  unfold print_version_data
  rw [h]

/-- C6 witness: the theorem instantiated with a filter matching only
the first of two loaded rows. -/
theorem C6_witness :
    print_version_data "1" "yb_stats.snapshots"
        (fun s => s == "10.0.0.1:7000") sampleFs =
      ([] ++ OutLine.mk OutStream.stdout versionHeaderLine ::
        ([sampleRow1, sampleRow2].filter
            (fun row => (fun s => s == "10.0.0.1:7000") row.hostname_port)).map
          (fun row => OutLine.mk OutStream.stdout (formatVersionRow row)),
       Outcome.ok ()) :=
  C6_filter_narrows_display_only "1" "yb_stats.snapshots" sampleFs
    (fun s => s == "10.0.0.1:7000") [] [sampleRow1, sampleRow2] rfl
